import Mathlib

/-!
Shallow embedding of the traffic-assessment pipeline of
`src/jakarta_traffic_bot.py` (class `JakartaTrafficBot`).

Modelling choices:
- Python floats are modelled as rationals (`ℚ`), integer durations as `ℤ`.
- Timestamps are integers in units of days, so the Python
  `datetime.now() - timedelta(days=days_back)` cutoff becomes `now - days_back`.
- The SQLite table `traffic_history` is a `List TrafficData`; row insertion
  order stands in for the autoincrement id, `INSERT` appends a row.
- SQL `AVG(duration_in_traffic)` over the qualifying rows is `NULL` (here
  `none`) when no rows qualify, otherwise the arithmetic mean as a rational.
- Python truthiness (`if not historical_avg`, `result[0] if result[0] else
  None`) is made explicit: both `None` and `0.0` are falsy.
- Coordinates appear in the code only through f-string interpolation into the
  location key, so a coordinate is modelled by its textual latitude and
  longitude components.
- The external directions API response is modelled by its parsed shape:
  a status string and the list of first legs of routes; the caught
  `ZeroDivisionError` on a zero baseline duration is the explicit
  zero test returning `none`.
-/

namespace JakartaTrafficBot

/-- The four severity labels returned by `calculate_severity`
(the Python code uses the strings "normal", "moderate", "heavy", "severe"). -/
inductive Severity where
  | normal
  | moderate
  | heavy
  | severe
deriving DecidableEq, Repr

/-- The order `normal < moderate < heavy < severe` on severity labels,
given by rank. -/
def sevRank : Severity → ℕ
  | .normal => 0
  | .moderate => 1
  | .heavy => 2
  | .severe => 3

/-- `calculate_severity` (src lines 136-145): thresholds are the
`severity_thresholds` dict values 0.15, 0.30, 0.60 (lines 66-71). -/
def calculate_severity (increase_ratio : ℚ) : Severity :=
  if increase_ratio ≤ 3/20 then .normal
  else if increase_ratio ≤ 3/10 then .moderate
  else if increase_ratio ≤ 3/5 then .heavy
  else .severe

/-- A coordinate, modelled by the textual form of its latitude and
longitude (the code only ever interpolates them into strings). -/
structure Coord where
  lat : String
  lng : String
deriving DecidableEq, Repr

/-- The location key built in `get_traffic_data` (line 126):
`f"{origin['lat']},{origin['lng']}-{destination['lat']},{destination['lng']}"`. -/
def locationKey (origin destination : Coord) : String :=
  origin.lat ++ "," ++ origin.lng ++ "-" ++ destination.lat ++ "," ++ destination.lng

/-- The `TrafficData` dataclass (src lines 26-32); also the shape of a
`traffic_history` row. -/
structure TrafficData where
  location : String
  duration_in_traffic : ℤ
  duration_normal : ℤ
  timestamp : ℤ
  severity : Severity
deriving DecidableEq, Repr

/-- The first leg of one route of a directions API response: the code reads
`route["duration_in_traffic"]["value"]` and `route["duration"]["value"]`
from `data["routes"][0]["legs"][0]` (lines 117-119). -/
structure Leg where
  duration_in_traffic : ℤ
  duration : ℤ
deriving DecidableEq, Repr

/-- A parsed directions API response: `data["status"]` and, per route, the
first leg. -/
structure ApiResponse where
  status : String
  routes : List Leg
deriving DecidableEq, Repr

/-- `get_traffic_data` (src lines 101-134). The network call is abstracted
into the `resp` argument and `datetime.now()` into `now`. The code guards
with `if data["status"] == "OK" and data["routes"]:` and otherwise falls
through to an implicit `None`; a zero `duration_normal` raises
`ZeroDivisionError` in `increase_ratio`, caught by the surrounding
`try/except` which returns `None` — here the explicit zero test. -/
def get_traffic_data (origin destination : Coord) (resp : ApiResponse)
    (now : ℤ) : Option TrafficData :=
  if resp.status = "OK" then
    match resp.routes with
    | [] => none
    | route :: _ =>
      let duration_in_traffic := route.duration_in_traffic
      let duration_normal := route.duration
      if duration_normal = 0 then none
      else
        let increase_ratio : ℚ :=
          ((duration_in_traffic : ℚ) - (duration_normal : ℚ)) / (duration_normal : ℚ)
        some { location := locationKey origin destination
               duration_in_traffic := duration_in_traffic
               duration_normal := duration_normal
               timestamp := now
               severity := calculate_severity increase_ratio }
  else none

/-- `store_traffic_data` (src lines 147-165): a single SQL `INSERT` of the
five fields of the `TrafficData` into `traffic_history`, i.e. appending one
row to the history. -/
def store_traffic_data (traffic_data : TrafficData) (db : List TrafficData) :
    List TrafficData :=
  db ++ [traffic_data]

/-- SQL `AVG` over a list of integer values: `NULL` (`none`) when the list
is empty, otherwise the arithmetic mean as a rational. -/
def sqlAvg (xs : List ℤ) : Option ℚ :=
  match xs with
  | [] => none
  | _ => some ((xs.map (fun x : ℤ => (x : ℚ))).sum / (xs.length : ℚ))

/-- The row filter of the query in `get_historical_average` (lines 174-178):
`WHERE location = ? AND timestamp > ?` with cutoff `now - days_back`. -/
def qualifies (location : String) (days_back : ℤ) (now : ℤ)
    (row : TrafficData) : Bool :=
  row.location == location && decide (now - days_back < row.timestamp)

/-- `get_historical_average` (src lines 167-183). The SQL `AVG` yields `NULL`
when no row qualifies; the final `return result[0] if result[0] else None`
maps both `NULL` and a zero average to `None` (Python truthiness). -/
def get_historical_average (location : String) (days_back : ℤ)
    (db : List TrafficData) (now : ℤ) : Option ℚ :=
  match sqlAvg ((db.filter (qualifies location days_back now)).map
      TrafficData.duration_in_traffic) with
  | none => none
  | some a => if a = 0 then none else some a

/-- The `f"{increase_ratio:.1%}"` formatting (line 195), modelled in exact
decimal arithmetic: the ratio as a percentage rounded to one decimal place.
(Only ever applied at ratios above 1/2, where the value is positive.) -/
def formatPercent (q : ℚ) : String :=
  let tenths : ℤ := round (q * 1000)
  toString (tenths / 10) ++ "." ++ toString (tenths % 10) ++ "%"

/-- `is_traffic_unusual` (src lines 185-197). `if not historical_avg` is
Python-falsy for both `None` and `0.0`; `get_historical_average` is called
with its default `days_back=30`. -/
def is_traffic_unusual (current_duration : ℤ) (location : String)
    (db : List TrafficData) (now : ℤ) : Bool × String :=
  match get_historical_average location 30 db now with
  | none => (false, "No historical data available")
  | some historical_avg =>
    if historical_avg = 0 then (false, "No historical data available")
    else
      let increase_ratio : ℚ :=
        ((current_duration : ℚ) - historical_avg) / historical_avg
      if increase_ratio > 1/2 then
        (true, "Traffic is " ++ formatPercent increase_ratio ++ " higher than usual")
      else
        (false, "Traffic is within normal range")

/-- A monitored road from the `major_roads` dict (lines 42-63): a name and
the two coordinate endpoints `coordinates[0]`, `coordinates[1]`. -/
structure Road where
  name : String
  origin : Coord
  destination : Coord
deriving DecidableEq, Repr

/-- `collect_traffic_data` (src lines 395-403): for each road, fetch; on a
`TrafficData` result store it, otherwise (fetch returned `None`) continue
with the next road. The per-road API responses are abstracted into `resp`. -/
def collect_traffic_data (resp : Road → ApiResponse) (now : ℤ)
    (roads : List Road) (db : List TrafficData) : List TrafficData :=
  roads.foldl (fun acc road =>
    match get_traffic_data road.origin road.destination (resp road) now with
    | some traffic_data => store_traffic_data traffic_data acc
    | none => acc) db

/-- The reply of `handle_text` when no origin location was shared
(lines 282-284). -/
def share_location_reply : String :=
  "Please share your location first by clicking the Share Location button."

/-- The reply of `handle_text` when geocoding fails (lines 291-293). -/
def bad_destination_reply : String :=
  "Could not find that destination. Please try a more specific address."

/-- The reply of `handle_text` when the fetch fails (lines 334-336). -/
def no_route_data_reply : String :=
  "Could not get traffic data for this route. Please try again."

/-- The outcome of one `handle_text` invocation: the reply text, the
resulting history, and how many geocoding and directions calls were made. -/
structure HandleTextResult where
  reply : String
  db : List TrafficData
  geocode_calls : ℕ
  fetch_calls : ℕ
deriving DecidableEq, Repr

/-- The route-information reply built by `handle_text` on success
(lines 316-327); its exact text is not load-bearing here, only which branch
produced it, so it is summarised by its variable parts. -/
def route_reply (text : String) (traffic_data : TrafficData)
    (is_unusual : Bool) (unusual_msg : String) : String :=
  "Route Information: " ++ text ++ " severity " ++ toString (sevRank traffic_data.severity)
    ++ (if is_unusual then " warning " ++ unusual_msg else " Traffic is normal")

/-- `handle_text` (src lines 279-336). `context.user_data['user_location']`
is the `user_location` argument (`none` when the key is absent); the
geocoding call and the directions call are abstracted into the `geocode`
and `resp` oracles, with the counters recording how many external calls the
handler performed. On success the observation is stored (line 332). -/
def handle_text (user_location : Option Coord) (text : String)
    (geocode : String → Option Coord) (resp : ApiResponse) (now : ℤ)
    (db : List TrafficData) : HandleTextResult :=
  match user_location with
  | none => ⟨share_location_reply, db, 0, 0⟩
  | some origin =>
    match geocode text with
    | none => ⟨bad_destination_reply, db, 1, 0⟩
    | some destination =>
      match get_traffic_data origin destination resp now with
      | some traffic_data =>
        let u := is_traffic_unusual traffic_data.duration_in_traffic
          traffic_data.location db now
        ⟨route_reply text traffic_data u.1 u.2,
          store_traffic_data traffic_data db, 1, 1⟩
      | none => ⟨no_route_data_reply, db, 1, 1⟩

/-- A concrete two-road configuration used to exercise the sweep: roads
"A" and "B". -/
def sweep_roads_example : List Road :=
  [⟨"A", ⟨"0", "0"⟩, ⟨"1", "1"⟩⟩, ⟨"B", ⟨"2", "2"⟩, ⟨"3", "3"⟩⟩]

/-- A concrete per-road response assignment for the sweep example: road "A"
gets a non-OK status (its fetch fails), every other road a successful
response with durations 1200 and 900. -/
def sweep_resp_example : Road → ApiResponse :=
  fun road =>
    if road.name == "A" then ⟨"FAIL", []⟩ else ⟨"OK", [⟨1200, 900⟩]⟩

end JakartaTrafficBot

namespace JakartaTrafficBot

/-- Sanity: the classifier on a few sample points. -/
example : calculate_severity (1/10) = .normal := by norm_num [calculate_severity]

example : calculate_severity (1/2) = .heavy := by norm_num [calculate_severity]

/-- Helper: `get_historical_average` never returns `some 0`, because the
Python `return result[0] if result[0] else None` maps a zero SQL average to
`None`. -/
theorem get_historical_average_not_some_zero (location : String)
    (days_back : ℤ) (db : List TrafficData) (now : ℤ) :
    ∀ a, get_historical_average location days_back db now = some a → a ≠ 0 := by
  intro a h
  unfold get_historical_average at h
  cases hs : sqlAvg ((db.filter (qualifies location days_back now)).map
      TrafficData.duration_in_traffic) with
  | none => rw [hs] at h; simp at h
  | some b =>
    rw [hs] at h
    simp only at h
    split_ifs at h with hb
    exact (Option.some.inj h) ▸ hb

/--
C1: for every real increase ratio `r`, `calculate_severity` returns exactly
one of the four labels `normal`, `moderate`, `heavy`, `severe`; the label is
monotone non-decreasing in `r` (under the rank order
`normal < moderate < heavy < severe`); the boundary inputs `0.15`, `0.30`
and `0.60` classify into the lower band; and every negative ratio
classifies as `normal`.
-/
theorem calculate_severity_spec :
    (∀ r : ℚ, calculate_severity r = .normal ∨ calculate_severity r = .moderate ∨
      calculate_severity r = .heavy ∨ calculate_severity r = .severe) ∧
    (∀ r s : ℚ, r ≤ s →
      sevRank (calculate_severity r) ≤ sevRank (calculate_severity s)) ∧
    calculate_severity (3/20) = .normal ∧
    calculate_severity (3/10) = .moderate ∧
    calculate_severity (3/5) = .heavy ∧
    (∀ r : ℚ, r < 0 → calculate_severity r = .normal) := by
  refine ⟨?_, ?_, ?_, ?_, ?_, ?_⟩
  · intro r
    unfold calculate_severity
    split_ifs <;> simp
  · intro r s h
    unfold calculate_severity
    split_ifs <;> simp [sevRank] <;> linarith
  · norm_num [calculate_severity]
  · norm_num [calculate_severity]
  · norm_num [calculate_severity]
  · intro r h
    rw [calculate_severity, if_pos (by linarith : r ≤ 3/20)]

/-- Witness for C1: the quantified parts of `calculate_severity_spec`
instantiated at concrete ratios. -/
theorem calculate_severity_spec_witness :
    sevRank (calculate_severity (1/10)) ≤ sevRank (calculate_severity (2/5)) ∧
    calculate_severity (-2) = .normal :=
  ⟨calculate_severity_spec.2.1 (1/10) (2/5) (by norm_num),
   calculate_severity_spec.2.2.2.2.2 (-2) (by norm_num)⟩

/-- Helper: the row filter of `get_historical_average` as a proposition. -/
theorem qualifies_iff (location : String) (days_back now : ℤ)
    (row : TrafficData) :
    qualifies location days_back now row = true ↔
      row.location = location ∧ now - days_back < row.timestamp := by
  simp [qualifies]

/-- Helper: `sqlAvg` on a nonempty list is the arithmetic mean. -/
theorem sqlAvg_of_ne_nil (xs : List ℤ) (h : xs ≠ []) :
    sqlAvg xs = some ((xs.map (fun x : ℤ => (x : ℚ))).sum / (xs.length : ℚ)) := by
  cases xs with
  | nil => exact absurd rfl h
  | cons y ys => rfl

/-- Helper: `sqlAvg` is invariant under permutation of its rows. -/
theorem sqlAvg_perm (xs ys : List ℤ) (h : xs.Perm ys) :
    sqlAvg xs = sqlAvg ys := by
  by_cases hx : xs = []
  · subst hx
    rw [h.symm.eq_nil]
  · have hy : ys ≠ [] := by
      intro hy
      exact hx ((hy ▸ h).eq_nil)
    have hm : (xs.map (fun x : ℤ => (x : ℚ))).Perm (ys.map (fun x : ℤ => (x : ℚ))) :=
      List.Perm.map _ h
    rw [sqlAvg_of_ne_nil xs hx, sqlAvg_of_ne_nil ys hy, hm.sum_eq, h.length_eq]

/--
C2: `is_traffic_unusual` returns `(false, "no historical data")` whenever
the historical average is absent, regardless of the current duration;
otherwise it returns `true` with the ratio formatted as a percentage exactly
when `(current - avg) / avg > 0.5`, and `(false, within-normal-range)`
otherwise; with historical average 100 it returns `true` at current 151
(ratio 0.51) and `false` at current 150 (ratio 0.50, strict boundary).
-/
theorem is_traffic_unusual_spec :
    (∀ (current_duration : ℤ) (location : String) (db : List TrafficData)
      (now : ℤ),
      get_historical_average location 30 db now = none →
      is_traffic_unusual current_duration location db now =
        (false, "No historical data available")) ∧
    (∀ (current_duration : ℤ) (location : String) (db : List TrafficData)
      (now : ℤ) (a : ℚ),
      get_historical_average location 30 db now = some a →
      is_traffic_unusual current_duration location db now =
        (if ((current_duration : ℚ) - a) / a > 1/2 then
          (true, "Traffic is " ++ formatPercent (((current_duration : ℚ) - a) / a)
            ++ " higher than usual")
        else (false, "Traffic is within normal range"))) ∧
    is_traffic_unusual 151 "L" [⟨"L", 100, 90, 0, .normal⟩] 0 =
      (true, "Traffic is 51.0% higher than usual") ∧
    is_traffic_unusual 150 "L" [⟨"L", 100, 90, 0, .normal⟩] 0 =
      (false, "Traffic is within normal range") := by
  refine ⟨?_, ?_, ?_, ?_⟩
  · intro current_duration location db now hnone
    unfold is_traffic_unusual
    rw [hnone]
  · intro current_duration location db now a hsome
    have ha : a ≠ 0 :=
      get_historical_average_not_some_zero location 30 db now a hsome
    unfold is_traffic_unusual
    rw [hsome]
    simp only [if_neg ha]
  · have h100 : get_historical_average "L" 30 [⟨"L", 100, 90, 0, .normal⟩] 0 =
        some 100 := by
      norm_num [get_historical_average, sqlAvg, qualifies, List.filter]
    unfold is_traffic_unusual
    rw [h100]
    norm_num [formatPercent]
    rfl
  · have h100 : get_historical_average "L" 30 [⟨"L", 100, 90, 0, .normal⟩] 0 =
        some 100 := by
      norm_num [get_historical_average, sqlAvg, qualifies, List.filter]
    unfold is_traffic_unusual
    rw [h100]
    norm_num

/-- Witness for C2: the no-history case of `is_traffic_unusual_spec` applied
to the empty history, and the with-history case applied to a concrete
history with average 100. -/
theorem is_traffic_unusual_spec_witness :
    is_traffic_unusual 42 "L" [] 0 = (false, "No historical data available") ∧
    is_traffic_unusual 300 "L" [⟨"L", 100, 90, 0, .normal⟩] 0 =
      (if ((300 : ℚ) - 100) / 100 > 1/2 then
        (true, "Traffic is " ++ formatPercent (((300 : ℚ) - 100) / 100)
          ++ " higher than usual")
      else (false, "Traffic is within normal range")) :=
  ⟨is_traffic_unusual_spec.1 42 "L" [] 0 (by norm_num [get_historical_average, sqlAvg]),
   by
    have h := is_traffic_unusual_spec.2.1 300 "L" [⟨"L", 100, 90, 0, .normal⟩] 0 100
      (by norm_num [get_historical_average, sqlAvg, qualifies, List.filter])
    norm_num at h ⊢
    exact h⟩

/--
C3 counterexample: a single Observation with `duration_in_traffic = 0`
recorded for location "L" and in the window. The arithmetic mean of the one
duration is `0` (second conjunct), but `get_historical_average` returns
`none` rather than the mean (first conjunct), because the Python
`return result[0] if result[0] else None` treats the SQL average `0.0` as
falsy. So the claim fails at N = 1, duration list `[0]`.
-/
theorem historical_average_zero_mean_counterexample :
    get_historical_average "L" 1000000 [⟨"L", 0, 0, 0, .normal⟩] 0 = none ∧
    sqlAvg (([⟨"L", 0, 0, 0, .normal⟩] : List TrafficData).map
      TrafficData.duration_in_traffic) = some 0 := by
  constructor
  · norm_num [get_historical_average, sqlAvg, qualifies, List.filter]
  · norm_num [sqlAvg]

/--
C3 amended: recording N ≥ 1 Observations for a location and querying with a
window that contains them all yields the arithmetic mean of exactly those N
durations — provided that mean is nonzero (equivalently, the durations do
not sum to zero; a zero mean is reported as `none` instead, per the
counterexample) — and `get_historical_average` is independent of the
insertion order of the rows.
-/
theorem historical_average_mean_spec :
    (∀ (location : String) (days_back now : ℤ) (db : List TrafficData),
      (∀ row ∈ db, row.location = location ∧ now - days_back < row.timestamp) →
      db ≠ [] →
      ((db.map TrafficData.duration_in_traffic).map (fun x : ℤ => (x : ℚ))).sum ≠ 0 →
      get_historical_average location days_back db now =
        some (((db.map TrafficData.duration_in_traffic).map
          (fun x : ℤ => (x : ℚ))).sum / (db.length : ℚ))) ∧
    (∀ (location : String) (days_back now : ℤ) (db db' : List TrafficData),
      db.Perm db' →
      get_historical_average location days_back db now =
        get_historical_average location days_back db' now) := by
  constructor
  · intro location days_back now db hall hne hsum
    have hfilter : db.filter (qualifies location days_back now) = db := by
      rw [List.filter_eq_self]
      intro row hrow
      exact (qualifies_iff location days_back now row).mpr (hall row hrow)
    have hmapne : db.map TrafficData.duration_in_traffic ≠ [] := by
      simpa using hne
    unfold get_historical_average
    rw [hfilter, sqlAvg_of_ne_nil _ hmapne]
    have hlen : ((db.map TrafficData.duration_in_traffic).length : ℚ) =
        (db.length : ℚ) := by
      rw [List.length_map]
    rw [hlen]
    have hq : ((db.map TrafficData.duration_in_traffic).map
        (fun x : ℤ => (x : ℚ))).sum / (db.length : ℚ) ≠ 0 := by
      apply div_ne_zero hsum
      simpa using hne
    simp only [if_neg hq]
  · intro location days_back now db db' hperm
    have h1 : (db.filter (qualifies location days_back now)).Perm
        (db'.filter (qualifies location days_back now)) := hperm.filter _
    have h2 : ((db.filter (qualifies location days_back now)).map
        TrafficData.duration_in_traffic).Perm
        ((db'.filter (qualifies location days_back now)).map
        TrafficData.duration_in_traffic) := h1.map _
    unfold get_historical_average
    rw [sqlAvg_perm _ _ h2]

/-- Witness for C3: two Observations for "L" with durations 100 and 200 in
the window average to 150, and swapping their insertion order leaves the
result unchanged. -/
theorem historical_average_mean_spec_witness :
    get_historical_average "L" 30
      [⟨"L", 100, 90, 0, .normal⟩, ⟨"L", 200, 90, 0, .normal⟩] 0 =
      some (((([⟨"L", 100, 90, 0, .normal⟩, ⟨"L", 200, 90, 0, .normal⟩] :
        List TrafficData).map TrafficData.duration_in_traffic).map
          (fun x : ℤ => (x : ℚ))).sum / (([⟨"L", 100, 90, 0, .normal⟩,
            ⟨"L", 200, 90, 0, .normal⟩] : List TrafficData).length : ℚ)) ∧
    get_historical_average "L" 30
      [⟨"L", 100, 90, 0, .normal⟩, ⟨"L", 200, 90, 0, .normal⟩] 0 =
    get_historical_average "L" 30
      [⟨"L", 200, 90, 0, .normal⟩, ⟨"L", 100, 90, 0, .normal⟩] 0 :=
  ⟨historical_average_mean_spec.1 "L" 30 0 _
      (by decide) (by decide) (by norm_num),
   historical_average_mean_spec.2 "L" 30 0 _ _
      (List.Perm.swap _ _ _)⟩

/--
C4: when no recorded Observation qualifies for the query — none has the
queried location key together with a timestamp after the `now - days_back`
cutoff — `get_historical_average` returns the absence value `none`
(the return type `Option ℚ` rules out an error, and `none ≠ some 0`).
-/
theorem historical_average_empty_window (location : String)
    (days_back now : ℤ) (db : List TrafficData)
    (h : ∀ row ∈ db,
      ¬(row.location = location ∧ now - days_back < row.timestamp)) :
    get_historical_average location days_back db now = none := by
  have hfilter : db.filter (qualifies location days_back now) = [] := by
    rw [List.filter_eq_nil_iff]
    intro row hrow
    intro hq
    exact h row hrow ((qualifies_iff location days_back now row).mp hq)
  unfold get_historical_average
  rw [hfilter]
  rfl

/-- Witness for C4: a history whose only rows are for another location or
before the cutoff yields `none`. -/
theorem historical_average_empty_window_witness :
    get_historical_average "L" 30
      [⟨"M", 100, 90, 0, .normal⟩, ⟨"L", 100, 90, -31, .normal⟩] 0 = none :=
  historical_average_empty_window "L" 30 0 _ (by decide)

/--
C9 (implicit): the anomaly comparator never divides by zero —
`get_historical_average` never returns `some 0` (a zero SQL average is
mapped to `None`), and whenever `is_traffic_unusual` leaves the
no-historical-data branch, the historical average it divides by exists and
is nonzero.
-/
theorem is_traffic_unusual_division_guard :
    (∀ (location : String) (days_back : ℤ) (db : List TrafficData) (now : ℤ)
      (a : ℚ), get_historical_average location days_back db now = some a →
        a ≠ 0) ∧
    (∀ (current_duration : ℤ) (location : String) (db : List TrafficData)
      (now : ℤ),
      is_traffic_unusual current_duration location db now ≠
        (false, "No historical data available") →
      ∃ a, get_historical_average location 30 db now = some a ∧ a ≠ 0) := by
  constructor
  · intro location days_back db now a h
    exact get_historical_average_not_some_zero location days_back db now a h
  · intro current_duration location db now h
    cases hg : get_historical_average location 30 db now with
    | none =>
      exfalso
      apply h
      unfold is_traffic_unusual
      rw [hg]
    | some a =>
      exact ⟨a, rfl,
        get_historical_average_not_some_zero location 30 db now a hg⟩

/-- Witness for C9: the guard applied to a concrete one-row history with
average 100, and to a concrete `is_traffic_unusual` call that flags unusual
traffic. -/
theorem is_traffic_unusual_division_guard_witness :
    (100 : ℚ) ≠ 0 ∧
    ∃ a, get_historical_average "L" 30 [⟨"L", 100, 90, 0, .normal⟩] 0 =
      some a ∧ a ≠ 0 :=
  ⟨is_traffic_unusual_division_guard.1 "L" 30 [⟨"L", 100, 90, 0, .normal⟩] 0
      100 (by norm_num [get_historical_average, sqlAvg, qualifies, List.filter]),
   is_traffic_unusual_division_guard.2 151 "L" [⟨"L", 100, 90, 0, .normal⟩] 0
      (by
        have h100 : get_historical_average "L" 30 [⟨"L", 100, 90, 0, .normal⟩] 0 =
            some 100 := by
          norm_num [get_historical_average, sqlAvg, qualifies, List.filter]
        unfold is_traffic_unusual
        rw [h100]
        norm_num)⟩

/--
C5: when the directions response reports a baseline duration of 0 for the
first route (the `increase_ratio` division would raise `ZeroDivisionError`,
caught by the `try/except`), `get_traffic_data` returns the failure value
`none` to its caller instead of crashing.
-/
theorem get_traffic_data_zero_baseline (origin destination : Coord)
    (resp : ApiResponse) (now : ℤ) (leg : Leg) (rest : List Leg)
    (hroutes : resp.routes = leg :: rest) (hzero : leg.duration = 0) :
    get_traffic_data origin destination resp now = none := by
  unfold get_traffic_data
  split_ifs with hst
  · rw [hroutes]
    simp [hzero]
  · rfl

/-- Witness for C5: a concrete OK response whose single route has baseline
duration 0 yields `none`. -/
theorem get_traffic_data_zero_baseline_witness :
    get_traffic_data ⟨"-6.2088", "106.8456"⟩ ⟨"-6.2297", "106.8269"⟩
      ⟨"OK", [⟨1200, 0⟩]⟩ 0 = none :=
  get_traffic_data_zero_baseline _ _ _ 0 ⟨1200, 0⟩ [] rfl rfl

/-- Helper: the success path of `get_traffic_data` — status OK, at least
one route, nonzero baseline — produces the fully populated observation. -/
theorem get_traffic_data_success_eq (origin destination : Coord)
    (resp : ApiResponse) (now : ℤ) (leg : Leg) (rest : List Leg)
    (hstatus : resp.status = "OK") (hroutes : resp.routes = leg :: rest)
    (hzero : leg.duration ≠ 0) :
    get_traffic_data origin destination resp now =
      some { location := locationKey origin destination
             duration_in_traffic := leg.duration_in_traffic
             duration_normal := leg.duration
             timestamp := now
             severity := calculate_severity
               (((leg.duration_in_traffic : ℚ) - (leg.duration : ℚ)) /
                 (leg.duration : ℚ)) } := by
  unfold get_traffic_data
  rw [if_pos hstatus, hroutes]
  simp only
  rw [if_neg hzero]

/--
C6: a successful fetch (status OK, at least one route, nonzero baseline)
returns a fully populated Observation whose severity is the classifier
applied to `(duration_in_traffic - duration_normal) / duration_normal` and
whose location is the deterministic key built from the four coordinate
values; in particular `duration_in_traffic = 1200`, `duration_normal = 900`
gives ratio 1/3 and severity `heavy`.
-/
theorem get_traffic_data_success_spec :
    (∀ (origin destination : Coord) (resp : ApiResponse) (now : ℤ)
      (leg : Leg) (rest : List Leg),
      resp.status = "OK" → resp.routes = leg :: rest → leg.duration ≠ 0 →
      get_traffic_data origin destination resp now =
        some { location := locationKey origin destination
               duration_in_traffic := leg.duration_in_traffic
               duration_normal := leg.duration
               timestamp := now
               severity := calculate_severity
                 (((leg.duration_in_traffic : ℚ) - (leg.duration : ℚ)) /
                   (leg.duration : ℚ)) }) ∧
    calculate_severity (((1200 : ℚ) - 900) / 900) = .heavy ∧
    (get_traffic_data ⟨"-6.2088", "106.8456"⟩ ⟨"-6.2297", "106.8269"⟩
      ⟨"OK", [⟨1200, 900⟩]⟩ 0).map TrafficData.severity = some .heavy ∧
    (get_traffic_data ⟨"-6.2088", "106.8456"⟩ ⟨"-6.2297", "106.8269"⟩
      ⟨"OK", [⟨1200, 900⟩]⟩ 0).map TrafficData.location =
      some "-6.2088,106.8456--6.2297,106.8269" := by
  have hmain := get_traffic_data_success_eq
  have hratio : calculate_severity (((1200 : ℚ) - 900) / 900) = .heavy := by
    norm_num [calculate_severity]
  refine ⟨hmain, hratio, ?_, ?_⟩
  · rw [hmain _ _ _ 0 ⟨1200, 900⟩ [] rfl rfl (by norm_num)]
    norm_num [calculate_severity]
  · rw [hmain _ _ _ 0 ⟨1200, 900⟩ [] rfl rfl (by norm_num)]
    rfl

/-- Witness for C6: the success case applied to a concrete OK response with
durations 1200 and 900. -/
theorem get_traffic_data_success_spec_witness :
    get_traffic_data ⟨"-6.2088", "106.8456"⟩ ⟨"-6.2297", "106.8269"⟩
      ⟨"OK", [⟨1200, 900⟩]⟩ 7 =
      some { location := locationKey ⟨"-6.2088", "106.8456"⟩ ⟨"-6.2297", "106.8269"⟩
             duration_in_traffic := 1200
             duration_normal := 900
             timestamp := 7
             severity := calculate_severity (((1200 : ℚ) - 900) / 900) } :=
  get_traffic_data_success_spec.1 ⟨"-6.2088", "106.8456"⟩ ⟨"-6.2297", "106.8269"⟩
    ⟨"OK", [⟨1200, 900⟩]⟩ 7 ⟨1200, 900⟩ [] rfl rfl (by norm_num)

/-- Helper: one sweep appends exactly the successfully fetched observations,
in road order, to the existing history. -/
theorem collect_traffic_data_eq (resp : Road → ApiResponse) (now : ℤ) :
    ∀ (roads : List Road) (db : List TrafficData),
    collect_traffic_data resp now roads db =
      db ++ roads.filterMap
        (fun road => get_traffic_data road.origin road.destination (resp road) now) := by
  intro roads
  induction roads with
  | nil => intro db; simp [collect_traffic_data]
  | cons r rs ih =>
    intro db
    have hstep : collect_traffic_data resp now (r :: rs) db =
        collect_traffic_data resp now rs
          (match get_traffic_data r.origin r.destination (resp r) now with
           | some t => store_traffic_data t db
           | none => db) := rfl
    rw [hstep]
    cases h : get_traffic_data r.origin r.destination (resp r) now with
    | none => simp [ih, h]
    | some t => simp [ih, h, store_traffic_data]

/-- Helper: when every element maps to `some`, `filterMap` preserves the
length. -/
theorem length_filterMap_all_some {α β : Type} (f : α → Option β) :
    ∀ l : List α, (∀ b ∈ l, (f b).isSome = true) →
      (l.filterMap f).length = l.length := by
  intro l
  induction l with
  | nil => intro _; rfl
  | cons x xs ih =>
    intro h
    rcases Option.isSome_iff_exists.mp (h x (List.mem_cons_self x xs)) with ⟨b, hb⟩
    rw [List.filterMap_cons_some hb]
    simp only [List.length_cons]
    rw [ih (fun b hb' => h b (List.mem_cons_of_mem _ hb'))]

/-- Helper: when exactly one element of a duplicate-free list maps to
`none` and every other element maps to `some`, `filterMap` drops exactly
one element. -/
theorem length_filterMap_of_unique_none {α β : Type} (f : α → Option β) :
    ∀ (l : List α) (a : α), l.Nodup → a ∈ l → f a = none →
      (∀ b ∈ l, b ≠ a → (f b).isSome = true) →
      (l.filterMap f).length = l.length - 1 := by
  intro l
  induction l with
  | nil => intro a _ ha; cases ha
  | cons x xs ih =>
    intro a hnd ha hfa hall
    rcases List.mem_cons.mp ha with h1 | h2
    · subst h1
      rw [List.filterMap_cons_none hfa]
      have hxs : ∀ b ∈ xs, (f b).isSome = true := by
        intro b hb
        refine hall b (List.mem_cons_of_mem _ hb) ?_
        intro hba
        subst hba
        exact (List.nodup_cons.mp hnd).1 hb
      rw [length_filterMap_all_some f xs hxs]
      simp
    · have hxa : x ≠ a := by
        intro h
        subst h
        exact (List.nodup_cons.mp hnd).1 h2
      rcases Option.isSome_iff_exists.mp
        (hall x (List.mem_cons_self x xs) hxa) with ⟨b, hb⟩
      rw [List.filterMap_cons_some hb]
      have hrec := ih a (List.nodup_cons.mp hnd).2 h2 hfa
        (fun c hc hca => hall c (List.mem_cons_of_mem _ hc) hca)
      have hpos : 0 < xs.length := List.length_pos_of_mem h2
      simp only [List.length_cons]
      omega

/-- Helper: a member mapped to `none` makes `filterMap` strictly shorter
than the input list. -/
theorem length_filterMap_lt_of_mem_none {α β : Type} (f : α → Option β) :
    ∀ (l : List α) (a : α), a ∈ l → f a = none →
      (l.filterMap f).length < l.length := by
  intro l
  induction l with
  | nil => intro a ha _; cases ha
  | cons x xs ih =>
    intro a ha hfa
    rcases List.mem_cons.mp ha with h1 | h2
    · subst h1
      rw [List.filterMap_cons_none hfa]
      have := List.length_filterMap_le f xs
      simp only [List.length_cons]
      omega
    · cases hfx : f x with
      | none =>
        rw [List.filterMap_cons_none hfx]
        have := ih a h2 hfa
        simp only [List.length_cons]
        omega
      | some b =>
        rw [List.filterMap_cons_some hfx]
        have := ih a h2 hfa
        simp only [List.length_cons, List.length_cons]
        omega

/--
C7: during a sweep over roads of which at least one fails to fetch, the
number of Observations recorded is exactly the number of successful
fetches, which is at most K-1; every row of the resulting history is either
a pre-existing row or the observation of a successfully fetched road (so no
partial row is written for a failed road); and every successfully fetched
road's observation is recorded (one failure never aborts the sweep).
-/
theorem collect_traffic_data_sweep_spec
    (resp : Road → ApiResponse) (now : ℤ) (roads : List Road)
    (db : List TrafficData) (r0 : Road) (hmem : r0 ∈ roads)
    (hfail : get_traffic_data r0.origin r0.destination (resp r0) now = none) :
    (collect_traffic_data resp now roads db).length =
      db.length + (roads.filterMap (fun road =>
        get_traffic_data road.origin road.destination (resp road) now)).length ∧
    (roads.filterMap (fun road =>
      get_traffic_data road.origin road.destination (resp road) now)).length ≤
      roads.length - 1 ∧
    (∀ row ∈ collect_traffic_data resp now roads db, row ∈ db ∨
      ∃ r ∈ roads,
        get_traffic_data r.origin r.destination (resp r) now = some row) ∧
    (∀ r ∈ roads, ∀ t,
      get_traffic_data r.origin r.destination (resp r) now = some t →
      t ∈ collect_traffic_data resp now roads db) ∧
    (roads.Nodup →
      (∀ r ∈ roads, r ≠ r0 →
        (get_traffic_data r.origin r.destination (resp r) now).isSome = true) →
      (collect_traffic_data resp now roads db).length =
        db.length + (roads.length - 1)) := by
  refine ⟨?_, ?_, ?_, ?_, ?_⟩
  · rw [collect_traffic_data_eq]
    simp
  · have hlt : (roads.filterMap (fun road =>
        get_traffic_data road.origin road.destination (resp road) now)).length <
        roads.length :=
      length_filterMap_lt_of_mem_none _ roads r0 hmem hfail
    omega
  · intro row hrow
    rw [collect_traffic_data_eq] at hrow
    rcases List.mem_append.mp hrow with h1 | h2
    · exact Or.inl h1
    · exact Or.inr (List.mem_filterMap.mp h2)
  · intro r hr t ht
    rw [collect_traffic_data_eq]
    exact List.mem_append.mpr (Or.inr (List.mem_filterMap.mpr ⟨r, hr, ht⟩))
  · intro hnodup hothers
    rw [collect_traffic_data_eq, List.length_append]
    rw [length_filterMap_of_unique_none _ roads r0 hnodup hmem hfail hothers]

/-- Witness for C7: a two-road sweep where road "A" fails to fetch (non-OK
status) and road "B" succeeds records exactly 2 - 1 = 1 observation into an
initially empty history. -/
theorem collect_traffic_data_sweep_spec_witness :
    (collect_traffic_data sweep_resp_example 0 sweep_roads_example []).length =
      ([] : List TrafficData).length + (sweep_roads_example.length - 1) :=
  (collect_traffic_data_sweep_spec sweep_resp_example 0 sweep_roads_example []
    ⟨"A", ⟨"0", "0"⟩, ⟨"1", "1"⟩⟩
    (by simp [sweep_roads_example])
    (by simp [sweep_resp_example, get_traffic_data])).2.2.2.2
    (by decide)
    (by
      intro r hr hne
      rcases List.mem_cons.mp hr with h1 | h2
      · exact absurd h1 hne
      · rcases List.mem_cons.mp h2 with h3 | h4
        · subst h3
          rw [get_traffic_data_success_eq _ _ _ 0 ⟨1200, 900⟩ [] rfl rfl
            (by norm_num)]
          rfl
        · cases h4)

/--
C8: the Observation history is append-only — `store_traffic_data` appends
exactly one new row at the end, leaves every previously stored row
unchanged at its position, and a duplicate call with the same Observation
creates a duplicate row; a sweep likewise only ever appends, never mutating
or deleting an existing row.
-/
theorem store_traffic_data_append_only :
    (∀ (traffic_data : TrafficData) (db : List TrafficData),
      store_traffic_data traffic_data db = db ++ [traffic_data]) ∧
    (∀ (traffic_data : TrafficData) (db : List TrafficData),
      (store_traffic_data traffic_data db).length = db.length + 1) ∧
    (∀ (traffic_data : TrafficData) (db : List TrafficData) (i : ℕ),
      i < db.length →
      (store_traffic_data traffic_data db)[i]? = db[i]?) ∧
    (∀ (traffic_data : TrafficData) (db : List TrafficData),
      store_traffic_data traffic_data (store_traffic_data traffic_data db) =
        db ++ [traffic_data, traffic_data]) ∧
    (∀ (resp : Road → ApiResponse) (now : ℤ) (roads : List Road)
      (db : List TrafficData) (i : ℕ), i < db.length →
      (collect_traffic_data resp now roads db)[i]? = db[i]?) := by
  refine ⟨?_, ?_, ?_, ?_, ?_⟩
  · intro t db; rfl
  · intro t db; simp [store_traffic_data]
  · intro t db i hi
    rw [store_traffic_data, List.getElem?_append, if_pos hi]
  · intro t db; simp [store_traffic_data]
  · intro resp now roads db i hi
    rw [collect_traffic_data_eq, List.getElem?_append, if_pos hi]

/-- Witness for C8: a one-row history keeps its row at index 0 after a
store and after a sweep. -/
theorem store_traffic_data_append_only_witness :
    (store_traffic_data ⟨"L", 1, 1, 0, .normal⟩
      [⟨"M", 2, 2, 0, .heavy⟩])[0]? = [(⟨"M", 2, 2, 0, .heavy⟩ : TrafficData)][0]? ∧
    (collect_traffic_data (fun _ => ⟨"FAIL", []⟩) 0 []
      [⟨"M", 2, 2, 0, .heavy⟩])[0]? = [(⟨"M", 2, 2, 0, .heavy⟩ : TrafficData)][0]? :=
  ⟨store_traffic_data_append_only.2.2.1 ⟨"L", 1, 1, 0, .normal⟩
      [⟨"M", 2, 2, 0, .heavy⟩] 0 (by simp),
   store_traffic_data_append_only.2.2.2.2 (fun _ => ⟨"FAIL", []⟩) 0 []
      [⟨"M", 2, 2, 0, .heavy⟩] 0 (by simp)⟩

/--
C10 (implicit): when no origin location was previously shared,
`handle_text` replies with the share-location prompt and returns
immediately — the history is unchanged and no geocoding or directions call
is made.
-/
theorem handle_text_no_location_spec (text : String)
    (geocode : String → Option Coord) (resp : ApiResponse) (now : ℤ)
    (db : List TrafficData) :
    handle_text none text geocode resp now db =
      ⟨share_location_reply, db, 0, 0⟩ :=
  rfl

end JakartaTrafficBot
